import Mathlib

/-!
Verification development for the `node-it-docker` test-database lifecycle
manager.  The repository ships two variants of the same module:
`src/node-it-docker.js` (the `dockerode`-based implementation, embedded below
with plain names) and `src/unnamed/part_000` (the `node-docker-api`-based
implementation, embedded with a `P` suffix).

The embedding is a shallow one: every interaction with the container engine or
the database driver is resolved by an explicit environment (`Env`) giving the
outcome of each kind of call, and every operation returns a `Res α` — an
`Except Err α` result together with the list of observable events (engine
calls, sleeps, connection-destroy calls, stop-callback invocations) it emitted,
in order.

The facade's methods are arrow functions in an object literal, so the `this`
inside them is the lexically captured module-scope `this`, which in a CommonJS
module is `module.exports` — an object that only ever receives `NodeItDocker`.
The `this.stop` passed to the verifier by `start`/`restart` and the
`this.start()` call in the restart fallbacks are therefore `undefined`, and
calling `undefined` throws a TypeError; these are embedded as `undefinedStop`
and `undefinedStartCall` below.
-/

namespace NodeItDocker

/-- Error values carried by rejected promises.  `engine` stands for a container
engine error, `db` for a database driver error, `invalidLength` for the
`{ msg: 'Invalid length' }` object rejected on a wrong sentinel row count, and
`typeError` for the JavaScript TypeError thrown by calling `undefined`. -/
inductive Err where
  | engine (msg : String)
  | db (msg : String)
  | invalidLength
  | typeError (msg : String)
deriving DecidableEq

deriving instance DecidableEq for Except

/-- Observable events, in the order the code emits them: container-engine API
calls, database-connection destroys, backoff sleeps (with their duration in
milliseconds), database connectivity attempts (with their 0-based index), and
invocations of the stop callback supplied to the connectivity verifier. -/
inductive Event where
  | listNetworks
  | createNetwork (name : String) (checkDuplicate attachable : Bool)
  | inspectContainer
  | createContainer
  | startContainer
  | stopContainer
  | removeContainer
  | restartContainer
  | connectNetwork (cid : String)
  | disconnectNetwork (cid : String)
  | removeNetwork
  | connectAttempt (i : Nat)
  | destroy
  | sleep (ms : Nat)
  | stopCalled
deriving DecidableEq

/-- The outcome of one operation: the settled result of the promise plus the
ordered list of events emitted while producing it. -/
structure Res (α : Type) where
  result : Except Err α
  trace : List Event
deriving DecidableEq

/-- Sequencing: on rejection the continuation does not run and no further
events are emitted (`await` propagates the rejection). -/
def bindRes {α β : Type} (x : Res α) (f : α → Res β) : Res β :=
  match x.result with
  | .error e => ⟨.error e, x.trace⟩
  | .ok a => ⟨(f a).result, x.trace ++ (f a).trace⟩

/-- A pure value: resolves immediately, emits nothing. -/
def okRes {α : Type} (a : α) : Res α := ⟨.ok a, []⟩

/-- An engine or driver call: emits its event and settles with the outcome the
environment assigns to that call. -/
def step {α : Type} (x : Except Err α) (e : Event) : Res α := ⟨x, [e]⟩

/-- Emit an event and resolve. -/
def emit (e : Event) : Res Unit := ⟨.ok (), [e]⟩

/-- JavaScript `try { x } catch (err) { h(err) }`: a rejection of `x` is
handed to the handler; events emitted before the rejection are kept. -/
def catchRes {α : Type} (x : Res α) (h : Err → Res α) : Res α :=
  match x.result with
  | .ok a => ⟨.ok a, x.trace⟩
  | .error e => ⟨(h e).result, x.trace ++ (h e).trace⟩

/-- JavaScript truthiness of a nullable string: `null` and `''` are falsy. -/
def truthy : Option String → Bool
  | none => false
  | some s => !s.isEmpty

/-- JavaScript `a || b` on nullable strings. -/
def jsOr (a b : Option String) : Option String :=
  if truthy a then a else b

/-- JavaScript `a || b` where `b` is a (non-null) string default. -/
def jsOrStr (a : Option String) (b : String) : String :=
  match a with
  | some s => if s.isEmpty then b else s
  | none => b

/-- The constructed configuration of a manager instance (§ the options object
of `NodeItDocker`), after the environment-variable overrides were applied. -/
structure Config where
  itImageName : String
  itContainerName : String
  externalPort : Nat
  containerNetworkName : String
  dataDir : String
  currentContainerId : Option String
  verifyDbConnection : Bool
  dbUsername : String
  dbPassword : String
  dbName : String
deriving DecidableEq

/-- The two process-environment variables read at construction time. -/
structure EnvVars where
  itContainer : Option String
  itImageName : Option String
deriving DecidableEq

/-- Construction of the manager's configuration:
`currentContainerId = process.env.IT_CONTAINER || currentContainerId || null`
and `itImageName = process.env.IT_IMAGE_NAME || itImageName`. -/
def mkConfig (opts : Config) (ev : EnvVars) : Config :=
  { opts with
    currentContainerId := jsOr ev.itContainer (jsOr opts.currentContainerId none)
    itImageName := jsOrStr ev.itImageName opts.itImageName }

/-- The default options object of `NodeItDocker`. -/
def defaultConfig : Config :=
  { itImageName := "989173062527.dkr.ecr.eu-west-1.amazonaws.com/it-mysql-v2"
    itContainerName := "node-it-container-qwerty12345"
    externalPort := 3806
    containerNetworkName := "node-it-test-net"
    dataDir := "/var/lib/mysql"
    currentContainerId := none
    verifyDbConnection := true
    dbUsername := "ituser"
    dbPassword := "ituser"
    dbName := "nursebuddy" }

def LOCALHOST : String := "127.0.0.1"

def MYSQL_DEFAULT_PORT : String := "3306"

/-- The `port` field of the connection-parameters object is heterogeneous in
the source: the fixed internal port is the string `'3306'`, the external port
is the configured number. -/
inductive PortValue where
  | str (s : String)
  | num (n : Nat)
deriving DecidableEq

/-- The connection-parameters object `{host, port, user, password, database}`
returned by `start`, `restart` and `getDbConnectionParameters`. -/
structure ConnectionParameters where
  host : String
  port : PortValue
  user : String
  password : String
  database : String
deriving DecidableEq

/-- `getDbConnectionParameters` — the same object literal is also returned by
`start` and `restart` on success (src/node-it-docker.js lines 213-221,
src/unnamed/part_000 lines 260-268; both variants are identical here). -/
def getDbConnectionParameters (cfg : Config) : ConnectionParameters :=
  { host := if truthy cfg.currentContainerId then cfg.itContainerName else LOCALHOST
    port := if truthy cfg.currentContainerId then .str MYSQL_DEFAULT_PORT
            else .num cfg.externalPort
    user := cfg.dbUsername
    password := cfg.dbPassword
    database := cfg.dbName }

/-- The environment of one database connectivity attempt: whether
`connection.connect` errors, and the result of the sentinel query
`SELECT id AS id FROM integration_test_flag LIMIT 1` (an error, or the number
of returned rows).  `connection.destroy()` of the mysql driver does not fail,
so it is modelled as an event only; the `try { connection.destroy() } catch`
wrappers of the part_000 variant are therefore vacuous. -/
structure ConnectEnv where
  connectError : Option Err
  queryResult : Except Err Nat
deriving DecidableEq

/-- One connectivity attempt, src/node-it-docker.js lines 60-82: on a connect
error it rejects at once (no destroy); otherwise the query runs, the
connection is destroyed, and the attempt resolves `true` on exactly one row,
rejecting with the query error or `{ msg: 'Invalid length' }` otherwise. -/
def connect (c : ConnectEnv) : Res Bool :=
  match c.connectError with
  | some e => ⟨.error e, []⟩
  | none =>
    match c.queryResult with
    | .error e => ⟨.error e, [.destroy]⟩
    | .ok n => if n = 1 then ⟨.ok true, [.destroy]⟩ else ⟨.error .invalidLength, [.destroy]⟩

/-- One connectivity attempt, src/unnamed/part_000 lines 69-124: same
structure, with the destroy call in each query-callback branch. -/
def connectP (c : ConnectEnv) : Res Bool :=
  match c.connectError with
  | some e => ⟨.error e, []⟩
  | none =>
    match c.queryResult with
    | .error e => ⟨.error e, [.destroy]⟩
    | .ok n => if n ≠ 1 then ⟨.error .invalidLength, [.destroy]⟩ else ⟨.ok true, [.destroy]⟩

/-- A network as reported by the engine's network-listing call. -/
structure NetworkInfo where
  Name : String
  Id : String
deriving DecidableEq

/-- The environment resolving every engine and driver call of one scenario:
one outcome per kind of engine call, and a per-attempt database behaviour. -/
structure Env where
  listNetworks : Except Err (List NetworkInfo)
  createNetwork : Except Err String
  inspectContainer : Except Err Unit
  createContainer : Except Err String
  startContainer : Except Err Unit
  connectNetwork : Except Err Unit
  stopContainer : Except Err Unit
  removeContainer : Except Err Unit
  disconnectNetwork : Except Err Unit
  removeNetwork : Except Err Unit
  restartContainer : Except Err Unit
  connectDb : Nat → ConnectEnv

/-- `getOrCreateNetwork`, src/node-it-docker.js lines 34-58: list the
networks (a listing failure is caught and treated as not-found), return the
handle of the first one whose name matches, otherwise issue one creation call
with `CheckDuplicate: true, Attachable: true`, whose failure propagates. -/
def getOrCreateNetwork (name : String) (env : Env) : Res String :=
  bindRes (emit .listNetworks) fun _ =>
    match env.listNetworks with
    | .ok nets =>
      match nets.find? fun n => n.Name == name with
      | some n => okRes n.Id
      | none => step env.createNetwork (.createNetwork name true true)
    | .error _ => step env.createNetwork (.createNetwork name true true)

/-- `getOrCreateNetwork`, src/unnamed/part_000 lines 43-67: as in the main
variant, except that the found network is also re-created when its reported
id is falsy (`!network.data.Id`), and the first match is taken with
`filter(...)[0]`. -/
def getOrCreateNetworkP (name : String) (env : Env) : Res String :=
  bindRes (emit .listNetworks) fun _ =>
    match env.listNetworks with
    | .ok nets =>
      match (nets.filter fun n => n.Name == name).head? with
      | some n =>
        if n.Id.isEmpty then step env.createNetwork (.createNetwork name true true)
        else okRes n.Id
      | none => step env.createNetwork (.createNetwork name true true)
    | .error _ => step env.createNetwork (.createNetwork name true true)

/-- `Math.round(w / 2)` for a nonnegative integer `w`: JavaScript rounds the
half case up, so the value is `(w + 1) / 2` in integer division. -/
def jsRoundHalf (w : Nat) : Nat := (w + 1) / 2

/-- `waitPeriod += Math.round(waitPeriod / 2)` — the backoff update. -/
def nextWait (w : Nat) : Nat := w + jsRoundHalf w

/-- The backoff schedule: `schedule 0 = 500` and
`schedule (n+1) = schedule n + Math.round(schedule n / 2)`. -/
def schedule : Nat → Nat
  | 0 => 500
  | n + 1 => nextWait (schedule n)

/-- The list of the first `n` waits starting from a wait of `w`. -/
def waitList (w : Nat) : Nat → List Nat
  | 0 => []
  | n + 1 => w :: waitList (nextWait w) n

/-- The result of the verifier's exhaustion path: `false`, unless awaiting the
stop callback rejected (`await stopFn()` is not guarded). -/
def stopResult (s : Res Unit) : Except Err Bool :=
  match s.result with
  | .ok _ => .ok false
  | .error e => .error e

/-- The retry loop of `verifyDatabaseConnection` (both variants, lines 90-101
resp. 132-145 of the sources), parametrised by the variant's `connect`
function, the per-attempt database environment, and the supplied stop
callback.  Arguments: current attempt index `i`, current `waitPeriod`,
remaining iterations (called with `0`, `500`, `10`).  A successful attempt
returns `true` at once; a failed attempt is followed by a sleep of the current
wait period and the updated wait; after the last iteration the stop callback
is invoked (its rejection would propagate) and `false` is returned. -/
def verifyLoop (conn : ConnectEnv → Res Bool) (cenv : Nat → ConnectEnv)
    (stopFn : Res Unit) : Nat → Nat → Nat → Res Bool
  | _, _, 0 => ⟨stopResult stopFn, .stopCalled :: stopFn.trace⟩
  | i, w, fuel + 1 =>
    if (conn (cenv i)).result = .ok true then
      ⟨.ok true, .connectAttempt i :: (conn (cenv i)).trace⟩
    else
      ⟨(verifyLoop conn cenv stopFn (i + 1) (nextWait w) fuel).result,
        .connectAttempt i :: (conn (cenv i)).trace
          ++ .sleep w :: (verifyLoop conn cenv stopFn (i + 1) (nextWait w) fuel).trace⟩

/-- `verifyDatabaseConnection`, src/node-it-docker.js lines 84-107.  When the
verify flag is off the function body is skipped and the JavaScript function
returns `undefined`, modelled as `none`; otherwise the result of the retry
loop is returned (`some true` / `some false`). -/
def verifyDatabaseConnection (verifyDbConnection : Bool) (cenv : Nat → ConnectEnv)
    (stopFn : Res Unit) : Res (Option Bool) :=
  if verifyDbConnection then
    ⟨((verifyLoop connect cenv stopFn 0 500 10).result).map some,
      (verifyLoop connect cenv stopFn 0 500 10).trace⟩
  else ⟨.ok none, []⟩

/-- `verifyDatabaseConnection`, src/unnamed/part_000 lines 126-151: the same
code over that variant's `connect`. -/
def verifyDatabaseConnectionP (verifyDbConnection : Bool) (cenv : Nat → ConnectEnv)
    (stopFn : Res Unit) : Res (Option Bool) :=
  if verifyDbConnection then
    ⟨((verifyLoop connectP cenv stopFn 0 500 10).result).map some,
      (verifyLoop connectP cenv stopFn 0 500 10).trace⟩
  else ⟨.ok none, []⟩

/-- The configured current-container id as the string used in
network-endpoint calls (`Container: currentContainerId`). -/
def currentId (cfg : Config) : String := cfg.currentContainerId.getD ""

/-- `stop`, src/node-it-docker.js lines 125-140: stop the container, remove it
(forced), disconnect the external container if configured, remove the network
(forced); the whole chain is wrapped in `try/catch`, so every failure is
swallowed after being logged. -/
def stop (cfg : Config) (env : Env) : Res Unit :=
  catchRes
    (bindRes (step env.stopContainer .stopContainer) fun _ =>
     bindRes (step env.removeContainer .removeContainer) fun _ =>
     bindRes (if truthy cfg.currentContainerId then
                step env.disconnectNetwork (.disconnectNetwork (currentId cfg))
              else okRes ()) fun _ =>
     step env.removeNetwork .removeNetwork)
    (fun _ => okRes ())

/-- `stop`, src/unnamed/part_000 lines 169-188: the same chain with no
`try/catch` — every failure propagates.  `docker.container.get(name)` builds a
local handle with `id = name`, so the `!container || !container.id` guard only
returns early for an empty configured container name. -/
def stopP (cfg : Config) (env : Env) : Res Unit :=
  if cfg.itContainerName.isEmpty then okRes ()
  else
    bindRes (step env.stopContainer .stopContainer) fun _ =>
    bindRes (step env.removeContainer .removeContainer) fun _ =>
    bindRes (if truthy cfg.currentContainerId then
               step env.disconnectNetwork (.disconnectNetwork (currentId cfg))
             else okRes ()) fun _ =>
    step env.removeNetwork .removeNetwork

/-- The stop callback the facade actually hands to the verifier: `this.stop`
evaluates to `module.exports.stop = undefined` (the methods are arrow
functions, so `this` is the module-scope `this`), and awaiting a call of
`undefined` rejects with a TypeError.  No teardown event is emitted. -/
def undefinedStop : Res Unit :=
  ⟨.error (.typeError "stopFn is not a function"), []⟩

/-- `return this.start()` in the restart fallbacks: `this.start` is likewise
`undefined`, so the call throws a TypeError and the promise rejects. -/
def undefinedStartCall : Res (Option ConnectionParameters) :=
  ⟨.error (.typeError "this.start is not a function"), []⟩

/-- `start`, src/node-it-docker.js lines 142-191: ensure the network, probe the
container with `inspect` and create it when the probe fails (a creation
failure propagates), start it, attach the external container when one is
configured, run the connectivity verification — passing `this.stop`, which is
`undefined`, as the teardown callback — and return the connection parameters
when verification returned a truthy value, `null` otherwise. -/
def start (cfg : Config) (env : Env) : Res (Option ConnectionParameters) :=
  bindRes (getOrCreateNetwork cfg.containerNetworkName env) fun _ =>
  bindRes (catchRes (bindRes (step env.inspectContainer .inspectContainer) fun _ => okRes ())
            (fun _ => bindRes (step env.createContainer .createContainer) fun _ => okRes ())) fun _ =>
  bindRes (step env.startContainer .startContainer) fun _ =>
  bindRes (if truthy cfg.currentContainerId then
             step env.connectNetwork (.connectNetwork (currentId cfg))
           else okRes ()) fun _ =>
  bindRes (verifyDatabaseConnection cfg.verifyDbConnection env.connectDb undefinedStop) fun v =>
  okRes (if v = some true then some (getDbConnectionParameters cfg) else none)

/-- `start`, src/unnamed/part_000 lines 189-238: `docker.container.get`
returns a local handle whose `data` is not populated, so the
`!container.data.Id` test always holds and the create branch is always taken:
ensure the network, create the container (a failure — e.g. a name conflict
with an existing container — propagates), start it, attach the external
container, verify — this variant too passes the `undefined` `this.stop` as
the teardown callback — and return parameters or `null`. -/
def startP (cfg : Config) (env : Env) : Res (Option ConnectionParameters) :=
  bindRes (getOrCreateNetworkP cfg.containerNetworkName env) fun _ =>
  bindRes (step env.createContainer .createContainer) fun _ =>
  bindRes (step env.startContainer .startContainer) fun _ =>
  bindRes (if truthy cfg.currentContainerId then
             step env.connectNetwork (.connectNetwork (currentId cfg))
           else okRes ()) fun _ =>
  bindRes (verifyDatabaseConnectionP cfg.verifyDbConnection env.connectDb undefinedStop) fun v =>
  okRes (if v = some true then some (getDbConnectionParameters cfg) else none)

/-- `restart`, src/node-it-docker.js lines 193-211: issue the restart call and
re-run verification inside a `try` (the verifier again receives the
`undefined` `this.stop`); any rejection (in particular a failed fetch/restart
of the named container) is caught, and the handler evaluates
`return this.start()` — a call of `undefined`, which throws a TypeError, so
the intended delegation to the `start` flow never happens. -/
def restart (cfg : Config) (env : Env) : Res (Option ConnectionParameters) :=
  catchRes
    (bindRes (step env.restartContainer .restartContainer) fun _ =>
     bindRes (verifyDatabaseConnection cfg.verifyDbConnection env.connectDb undefinedStop) fun v =>
     okRes (if v = some true then some (getDbConnectionParameters cfg) else none))
    (fun _ => undefinedStartCall)

/-- `restart`, src/unnamed/part_000 lines 239-259: the guard
`container && container.id` tests the local handle, whose `id` equals the
configured name, so for a nonempty name the restart call is issued
unconditionally and its failure propagates (no `try/catch`); the verifier
receives the `undefined` `this.stop`.  The `return this.start()` branch —
itself a call of `undefined` — is only reachable for an empty configured
name. -/
def restartP (cfg : Config) (env : Env) : Res (Option ConnectionParameters) :=
  if cfg.itContainerName.isEmpty then undefinedStartCall
  else
    bindRes (step env.restartContainer .restartContainer) fun _ =>
    bindRes (verifyDatabaseConnectionP cfg.verifyDbConnection env.connectDb undefinedStop) fun v =>
    okRes (if v = some true then some (getDbConnectionParameters cfg) else none)

/-- Whether an event is a database connectivity attempt. -/
def isAttempt : Event → Bool
  | .connectAttempt _ => true
  | _ => false

/-- Whether an event is an invocation of the supplied stop callback. -/
def isStopCalled : Event → Bool
  | .stopCalled => true
  | _ => false

/-- Whether an event is a network-creation call. -/
def isCreateNetwork : Event → Bool
  | .createNetwork _ _ _ => true
  | _ => false

/-- The durations of the sleeps of a trace, in order. -/
def sleepsOf (tr : List Event) : List Nat :=
  tr.filterMap fun e => match e with | .sleep n => some n | _ => none

/-- The trace produced by the retry loop when every attempt fails: attempt
events (with the attempt's own connection events) each followed by the sleep
of the current wait period. -/
def failTrace (conn : ConnectEnv → Res Bool) (cenv : Nat → ConnectEnv) :
    Nat → Nat → Nat → List Event
  | _, _, 0 => []
  | i, w, fuel + 1 =>
    .connectAttempt i :: (conn (cenv i)).trace
      ++ .sleep w :: failTrace conn cenv (i + 1) (nextWait w) fuel

/-- An environment in which every engine call succeeds. -/
def Env.allOk (env : Env) : Prop :=
  (∃ nets, env.listNetworks = .ok nets) ∧ (∃ nid, env.createNetwork = .ok nid) ∧
  env.inspectContainer = .ok () ∧ (∃ cid, env.createContainer = .ok cid) ∧
  env.startContainer = .ok () ∧ env.connectNetwork = .ok () ∧
  env.stopContainer = .ok () ∧ env.removeContainer = .ok () ∧
  env.disconnectNetwork = .ok () ∧ env.removeNetwork = .ok () ∧
  env.restartContainer = .ok ()

/-- A connectivity attempt that fails at the connection step. -/
def failAttempt : ConnectEnv := ⟨some (.db "ECONNREFUSED"), .ok 0⟩

/-- A connectivity attempt that succeeds (one sentinel row). -/
def okAttempt : ConnectEnv := ⟨none, .ok 1⟩

/-- The database behaviour in which every attempt fails. -/
def cenvAllFail : Nat → ConnectEnv := fun _ => failAttempt

/-- The database behaviour that fails before attempt `k` and succeeds at it. -/
def cenvSuccAt (k : Nat) : Nat → ConnectEnv :=
  fun i => if i = k then okAttempt else failAttempt

/-- A stop callback that does nothing. -/
def stopNop : Res Unit := ⟨.ok (), []⟩

/-- The verifier trace preceding a success at attempt `k` against
`cenvSuccAt k`: each earlier attempt followed by its scheduled sleep. -/
def successPrefix : Nat → List Event
  | 0 => []
  | k + 1 => successPrefix k ++ [.connectAttempt k, .sleep (schedule k)]

/-- An environment in which every engine call succeeds and the database
answers at the first attempt. -/
def envHappy : Env :=
  { listNetworks := .ok []
    createNetwork := .ok "network-id-1"
    inspectContainer := .ok ()
    createContainer := .ok "container-id-1"
    startContainer := .ok ()
    connectNetwork := .ok ()
    stopContainer := .ok ()
    removeContainer := .ok ()
    disconnectNetwork := .ok ()
    removeNetwork := .ok ()
    restartContainer := .ok ()
    connectDb := fun _ => okAttempt }

/-- Every engine call succeeds but the database never answers. -/
def envDbDown : Env := { envHappy with connectDb := fun _ => failAttempt }

/-- The named container is absent: stopping it fails. -/
def envStopGone : Env :=
  { envHappy with stopContainer := .error (.engine "no such container") }

/-- The named container is absent: inspect and restart calls fail, creation
succeeds. -/
def envNoContainer : Env :=
  { envHappy with
    inspectContainer := .error (.engine "no such container")
    restartContainer := .error (.engine "no such container") }

/-- The named container already exists: inspect succeeds, creation under the
same name is rejected by the engine with a name conflict. -/
def envContainerExists : Env :=
  { envHappy with createContainer := .error (.engine "name conflict") }

/-- The default configuration with verification disabled. -/
def cfgNoVerify : Config := { defaultConfig with verifyDbConnection := false }

/-- The network list reported by an environment (empty when listing fails). -/
def netsOf (env : Env) : List NetworkInfo :=
  match env.listNetworks with
  | .ok nets => nets
  | .error _ => []

theorem bindRes_ok {α β : Type} {x : Res α} {a : α} (f : α → Res β)
    (h : x.result = .ok a) :
    bindRes x f = ⟨(f a).result, x.trace ++ (f a).trace⟩ := by
  simp [bindRes, h]

theorem bindRes_err {α β : Type} {x : Res α} {e : Err} (f : α → Res β)
    (h : x.result = .error e) :
    bindRes x f = ⟨.error e, x.trace⟩ := by
  simp [bindRes, h]

theorem catchRes_ok {α : Type} {x : Res α} {a : α} (h : Err → Res α)
    (hx : x.result = .ok a) :
    catchRes x h = ⟨.ok a, x.trace⟩ := by
  simp [catchRes, hx]

theorem catchRes_err {α : Type} {x : Res α} {e : Err} (h : Err → Res α)
    (hx : x.result = .error e) :
    catchRes x h = ⟨(h e).result, x.trace ++ (h e).trace⟩ := by
  simp [catchRes, hx]

theorem connectP_eq_connect (c : ConnectEnv) : connectP c = connect c := by
  rcases c with ⟨ce, qr⟩
  cases ce with
  | some e => rfl
  | none =>
    cases qr with
    | error e => rfl
    | ok n =>
      by_cases h : n = 1 <;> simp [connectP, connect, h]

theorem connect_trace_cases (c : ConnectEnv) :
    (connect c).trace = [] ∨ (connect c).trace = [Event.destroy] := by
  rcases c with ⟨ce, qr⟩
  cases ce with
  | some e => exact Or.inl rfl
  | none =>
    cases qr with
    | error e => exact Or.inr rfl
    | ok n =>
      by_cases h : n = 1 <;> simp [connect, h]

theorem connect_trace_countP_isAttempt (c : ConnectEnv) :
    (connect c).trace.countP isAttempt = 0 := by
  rcases connect_trace_cases c with h | h <;> rw [h] <;> decide

theorem connect_trace_sleepsOf (c : ConnectEnv) :
    sleepsOf (connect c).trace = [] := by
  rcases connect_trace_cases c with h | h <;> rw [h] <;> decide

theorem mkConfig_currentContainerId_not_empty (opts : Config) (ev : EnvVars)
    (s : String) (h : (mkConfig opts ev).currentContainerId = some s) :
    s.isEmpty = false := by
  unfold mkConfig jsOr at h
  simp only at h
  by_cases h1 : truthy ev.itContainer = true
  · rw [if_pos h1] at h
    rw [h] at h1
    simpa [truthy] using h1
  · rw [if_neg h1] at h
    by_cases h2 : truthy opts.currentContainerId = true
    · rw [if_pos h2] at h
      rw [h] at h2
      simpa [truthy] using h2
    · rw [if_neg h2] at h
      cases h

theorem verifyLoop_connectP (cenv : Nat → ConnectEnv) (s : Res Unit) :
    ∀ fuel i w, verifyLoop connectP cenv s i w fuel = verifyLoop connect cenv s i w fuel := by
  intro fuel
  induction fuel with
  | zero => intro i w; rfl
  | succ n ih =>
    intro i w
    simp only [verifyLoop, connectP_eq_connect, ih]

theorem verifyLoop_fail (cenv : Nat → ConnectEnv) (s : Res Unit) :
    ∀ fuel i w, (∀ j, j < fuel → (connect (cenv (i + j))).result ≠ .ok true) →
    verifyLoop connect cenv s i w fuel =
      ⟨stopResult s, failTrace connect cenv i w fuel ++ .stopCalled :: s.trace⟩ := by
  intro fuel
  induction fuel with
  | zero =>
    intro i w _
    simp [verifyLoop, failTrace]
  | succ n ih =>
    intro i w h
    have h0 : (connect (cenv i)).result ≠ .ok true := by
      simpa using h 0 n.succ_pos
    have hrec := ih (i + 1) (nextWait w) fun j hj => by
      have hx := h (j + 1) (Nat.succ_lt_succ hj)
      rw [show i + (j + 1) = i + 1 + j by omega] at hx
      exact hx
    simp only [verifyLoop, if_neg h0, hrec, failTrace]
    simp [List.append_assoc]

theorem verifyLoop_result_congr (cenv : Nat → ConnectEnv) (s1 s2 : Res Unit)
    (h : stopResult s1 = stopResult s2) :
    ∀ fuel i w,
      (verifyLoop connect cenv s1 i w fuel).result
        = (verifyLoop connect cenv s2 i w fuel).result := by
  intro fuel
  induction fuel with
  | zero => intro i w; simpa [verifyLoop] using h
  | succ n ih =>
    intro i w
    by_cases hc : (connect (cenv i)).result = .ok true <;> simp [verifyLoop, hc, ih]

theorem failTrace_countP_isAttempt (cenv : Nat → ConnectEnv) :
    ∀ fuel i w, (failTrace connect cenv i w fuel).countP isAttempt = fuel := by
  intro fuel
  induction fuel with
  | zero => intro i w; rfl
  | succ n ih =>
    intro i w
    simp [failTrace, List.countP_cons, List.countP_append, ih,
      connect_trace_countP_isAttempt, isAttempt]

theorem sleepsOf_append (a b : List Event) :
    sleepsOf (a ++ b) = sleepsOf a ++ sleepsOf b := by
  simp [sleepsOf, List.filterMap_append]

theorem sleepsOf_attempt_cons (i : Nat) (l : List Event) :
    sleepsOf (.connectAttempt i :: l) = sleepsOf l := by
  simp [sleepsOf, List.filterMap_cons]

theorem sleepsOf_sleep_cons (n : Nat) (l : List Event) :
    sleepsOf (.sleep n :: l) = n :: sleepsOf l := by
  simp [sleepsOf, List.filterMap_cons]

theorem failTrace_succ (conn : ConnectEnv → Res Bool) (cenv : Nat → ConnectEnv)
    (i w fuel : Nat) :
    failTrace conn cenv i w (fuel + 1)
      = .connectAttempt i :: (conn (cenv i)).trace
          ++ .sleep w :: failTrace conn cenv (i + 1) (nextWait w) fuel := rfl

theorem failTrace_sleepsOf (cenv : Nat → ConnectEnv) :
    ∀ fuel i w, sleepsOf (failTrace connect cenv i w fuel) = waitList w fuel := by
  intro fuel
  induction fuel with
  | zero => intro i w; rfl
  | succ n ih =>
    intro i w
    rw [failTrace_succ, sleepsOf_append, sleepsOf_attempt_cons,
      connect_trace_sleepsOf, sleepsOf_sleep_cons, ih]
    rfl

theorem failTrace_decomp (cenv : Nat → ConnectEnv) :
    ∀ fuel i w, ∃ pre post,
      failTrace connect cenv i w (fuel + 1) = pre ++ post ∧
      pre.countP isAttempt = fuel + 1 ∧
      sleepsOf pre = waitList w fuel ∧
      post.countP isAttempt = 0 := by
  intro fuel
  induction fuel with
  | zero =>
    intro i w
    refine ⟨.connectAttempt i :: (connect (cenv i)).trace, [.sleep w], ?_, ?_, ?_, ?_⟩
    · simp [failTrace_succ, failTrace]
    · simp [List.countP_cons, connect_trace_countP_isAttempt, isAttempt]
    · rw [sleepsOf_attempt_cons, connect_trace_sleepsOf]
      rfl
    · simp [List.countP_cons, isAttempt]
  | succ n ih =>
    intro i w
    obtain ⟨pre, post, h1, h2, h3, h4⟩ := ih (i + 1) (nextWait w)
    refine ⟨.connectAttempt i :: (connect (cenv i)).trace ++ .sleep w :: pre, post,
      ?_, ?_, ?_, h4⟩
    · rw [failTrace_succ, h1]
      simp [List.append_assoc]
    · simp [List.countP_cons, List.countP_append, connect_trace_countP_isAttempt,
        isAttempt, h2]
    · rw [sleepsOf_append, sleepsOf_attempt_cons, connect_trace_sleepsOf,
        sleepsOf_sleep_cons, h3]
      rfl

theorem verify_fail_eq (cenv : Nat → ConnectEnv) (s : Res Unit)
    (h : ∀ i, i < 10 → (connect (cenv i)).result ≠ .ok true) :
    verifyDatabaseConnection true cenv s =
      ⟨(stopResult s).map some, failTrace connect cenv 0 500 10 ++ .stopCalled :: s.trace⟩ := by
  have hl := verifyLoop_fail cenv s 10 0 500 (by simpa using h)
  simp [verifyDatabaseConnection, hl]

theorem catchRes_result_unit (x : Res Unit) :
    (catchRes x fun _ => okRes ()).result = .ok () := by
  rcases hx : x.result with e | a
  · simp [catchRes, hx, okRes]
  · cases a
    simp [catchRes, hx]

theorem stop_result_ok (cfg : Config) (env : Env) : (stop cfg env).result = .ok () := by
  unfold stop
  exact catchRes_result_unit _

theorem bindRes_result_ok {α β : Type} {x : Res α} {a : α} (f : α → Res β)
    (h : x.result = .ok a) :
    (bindRes x f).result = (f a).result := by
  simp [bindRes, h]

theorem bindRes_result_err {α β : Type} {x : Res α} {e : Err} (f : α → Res β)
    (h : x.result = .error e) :
    (bindRes x f).result = .error e := by
  simp [bindRes, h]

theorem head_filter_eq_find (p : NetworkInfo → Bool) (l : List NetworkInfo) :
    (l.filter p).head? = l.find? p := by
  induction l with
  | nil => rfl
  | cons a t ih =>
    by_cases h : p a <;> simp [List.filter_cons, List.find?_cons, h, ih]

theorem getOrCreateNetworkP_eq (name : String) (env : Env)
    (hn : ∀ n ∈ netsOf env, n.Name = name → n.Id.isEmpty = false) :
    getOrCreateNetworkP name env = getOrCreateNetwork name env := by
  rcases hl : env.listNetworks with e | nets
  · simp [getOrCreateNetworkP, getOrCreateNetwork, hl]
  · simp only [getOrCreateNetworkP, getOrCreateNetwork, hl, head_filter_eq_find]
    rcases hf : nets.find? (fun m => m.Name == name) with _ | n
    · simp [hf]
    · have hmem : n ∈ nets := List.mem_of_find?_eq_some hf
      have hp := List.find?_some hf
      have hid : n.Id.isEmpty = false := by
        refine hn n ?_ ?_
        · simp [netsOf, hl, hmem]
        · simpa using hp
      simp [hf, hid]

theorem verifyP_result_eq (flag : Bool) (cenv : Nat → ConnectEnv) (s1 s2 : Res Unit)
    (h : stopResult s2 = stopResult s1) :
    (verifyDatabaseConnectionP flag cenv s2).result
      = (verifyDatabaseConnection flag cenv s1).result := by
  cases flag
  · rfl
  · have h1 := verifyLoop_result_congr cenv s2 s1 h 10 0 500
    simp [verifyDatabaseConnectionP, verifyDatabaseConnection, verifyLoop_connectP, h1]

/-- C8: a single connectivity attempt resolves successfully iff the connection
opens and the sentinel query returns exactly one row; on a query error or a
wrong row count the connection is destroyed and the attempt rejects (with the
query error, or `{msg: 'Invalid length'}`); on a connect error the attempt
rejects at once without any close call.  Both variants behave identically
(`connectP c = connect c`). -/
theorem c8_connect_attempt_behaviour (c : ConnectEnv) :
    ((connect c).result = .ok true ↔ c.connectError = none ∧ c.queryResult = .ok 1) ∧
    connectP c = connect c ∧
    (∀ e, c.connectError = some e → connect c = ⟨.error e, []⟩) ∧
    (∀ e, c.connectError = none → c.queryResult = .error e →
      connect c = ⟨.error e, [.destroy]⟩) ∧
    (∀ n, c.connectError = none → c.queryResult = .ok n → n ≠ 1 →
      connect c = ⟨.error .invalidLength, [.destroy]⟩) := by
  refine ⟨?_, connectP_eq_connect _, ?_, ?_, ?_⟩
  · constructor
    · intro h
      rcases hce : c.connectError with _ | e
      · rcases hq : c.queryResult with e | n
        · simp [connect, hce, hq] at h
        · by_cases hn : n = 1
          · subst hn
            exact ⟨rfl, rfl⟩
          · simp [connect, hce, hq, hn] at h
      · simp [connect, hce] at h
    · rintro ⟨h1, h2⟩
      simp [connect, h1, h2]
  · intro e he
    simp [connect, he]
  · intro e h1 h2
    simp [connect, h1, h2]
  · intro n h1 h2 h3
    simp [connect, h1, h2, h3]

/-- Witness for C8's theorem at concrete attempts: a successful attempt, a
query-error attempt and a zero-row attempt. -/
theorem c8_witness :
    (connect okAttempt).result = .ok true ∧
    connect ⟨none, .error (.db "bad query")⟩ = ⟨.error (.db "bad query"), [.destroy]⟩ ∧
    connect ⟨none, .ok 0⟩ = ⟨.error .invalidLength, [.destroy]⟩ :=
  ⟨(c8_connect_attempt_behaviour okAttempt).1.mpr ⟨rfl, rfl⟩,
   (c8_connect_attempt_behaviour ⟨none, .error (.db "bad query")⟩).2.2.2.1 _ rfl rfl,
   (c8_connect_attempt_behaviour ⟨none, .ok 0⟩).2.2.2.2 0 rfl rfl (by decide)⟩

/-- Counterexample for C8 as stated: on a connect error the attempt rejects
but the connection is NOT closed — no destroy call is emitted. -/
theorem c8_counterexample :
    (connect ⟨some (.db "ECONNREFUSED"), .ok 1⟩).result = .error (.db "ECONNREFUSED") ∧
    Event.destroy ∉ (connect ⟨some (.db "ECONNREFUSED"), .ok 1⟩).trace := by
  decide

/-- C3 (code bug): with the verify flag disabled, `verifyDatabaseConnection`
returns `undefined` (`none`), which `start` treats as falsy, so `start`
returns `null` even though every engine call and the database succeed — the
spec instead says verification implicitly succeeds and `start` returns the
connection parameters.  Both variants exhibit the behaviour. -/
theorem c3_verify_disabled_start_returns_null :
    (verifyDatabaseConnection false envHappy.connectDb (stop cfgNoVerify envHappy)).result
      = .ok none ∧
    (verifyDatabaseConnection false envHappy.connectDb (stop cfgNoVerify envHappy)).trace
      = [] ∧
    (start cfgNoVerify envHappy).result = .ok none ∧
    (startP cfgNoVerify envHappy).result = .ok none := by
  decide

/-- C4: `getDbConnectionParameters` is a pure function of the constructed
configuration: with a configured external container id the host is the
container name and the port the string `'3306'`; without one the host is
`'127.0.0.1'` and the port the configured external port; the credentials are
always the configured ones, and repeated calls return equal objects. -/
theorem c4_connection_parameters_pure (opts : Config) (ev : EnvVars) :
    ((mkConfig opts ev).currentContainerId.isSome = true →
      getDbConnectionParameters (mkConfig opts ev) =
        { host := (mkConfig opts ev).itContainerName
          port := .str "3306"
          user := (mkConfig opts ev).dbUsername
          password := (mkConfig opts ev).dbPassword
          database := (mkConfig opts ev).dbName }) ∧
    ((mkConfig opts ev).currentContainerId.isSome = false →
      getDbConnectionParameters (mkConfig opts ev) =
        { host := "127.0.0.1"
          port := .num (mkConfig opts ev).externalPort
          user := (mkConfig opts ev).dbUsername
          password := (mkConfig opts ev).dbPassword
          database := (mkConfig opts ev).dbName }) ∧
    getDbConnectionParameters (mkConfig opts ev) = getDbConnectionParameters (mkConfig opts ev) := by
  refine ⟨?_, ?_, rfl⟩
  · intro h
    rcases hs : (mkConfig opts ev).currentContainerId with _ | s
    · rw [hs] at h
      simp at h
    · have hne := mkConfig_currentContainerId_not_empty opts ev s hs
      have ht : truthy (mkConfig opts ev).currentContainerId = true := by
        rw [hs]
        simp [truthy, hne]
      simp [getDbConnectionParameters, ht, MYSQL_DEFAULT_PORT]
  · intro h
    have ht : truthy (mkConfig opts ev).currentContainerId = false := by
      rcases hs : (mkConfig opts ev).currentContainerId with _ | s
      · simp [truthy]
      · rw [hs] at h
        simp at h
    simp [getDbConnectionParameters, ht, LOCALHOST]

/-- Witness for C4's theorem: the default options with the external-container
environment variable set, and without it. -/
theorem c4_witness :
    getDbConnectionParameters (mkConfig defaultConfig ⟨some "runner-1", none⟩) =
      { host := (mkConfig defaultConfig ⟨some "runner-1", none⟩).itContainerName
        port := .str "3306"
        user := (mkConfig defaultConfig ⟨some "runner-1", none⟩).dbUsername
        password := (mkConfig defaultConfig ⟨some "runner-1", none⟩).dbPassword
        database := (mkConfig defaultConfig ⟨some "runner-1", none⟩).dbName } ∧
    getDbConnectionParameters (mkConfig defaultConfig ⟨none, none⟩) =
      { host := "127.0.0.1"
        port := .num (mkConfig defaultConfig ⟨none, none⟩).externalPort
        user := (mkConfig defaultConfig ⟨none, none⟩).dbUsername
        password := (mkConfig defaultConfig ⟨none, none⟩).dbPassword
        database := (mkConfig defaultConfig ⟨none, none⟩).dbName } :=
  ⟨(c4_connection_parameters_pure defaultConfig ⟨some "runner-1", none⟩).1 (by decide),
   (c4_connection_parameters_pure defaultConfig ⟨none, none⟩).2.1 (by decide)⟩

/-- C7: `getOrCreateNetwork` returns the handle of an existing network whose
name matches without issuing a creation call; when the listing fails or no
network matches, it issues exactly one creation call (attachable,
duplicate-checked) whose outcome — the created handle or the creation
failure — is returned as is.  The part_000 variant behaves the same, with its
additional guard that the found network's reported id be truthy. -/
theorem c7_getOrCreateNetwork_behaviour :
    (∀ name env nets n, env.listNetworks = .ok nets →
      nets.find? (fun m => m.Name == name) = some n →
      getOrCreateNetwork name env = ⟨.ok n.Id, [.listNetworks]⟩) ∧
    (∀ name env nets, env.listNetworks = .ok nets →
      nets.find? (fun m => m.Name == name) = none →
      getOrCreateNetwork name env
        = ⟨env.createNetwork, [.listNetworks, .createNetwork name true true]⟩) ∧
    (∀ name env e, env.listNetworks = .error e →
      getOrCreateNetwork name env
        = ⟨env.createNetwork, [.listNetworks, .createNetwork name true true]⟩) ∧
    (∀ name env nets n, env.listNetworks = .ok nets →
      (nets.filter fun m => m.Name == name).head? = some n → n.Id.isEmpty = false →
      getOrCreateNetworkP name env = ⟨.ok n.Id, [.listNetworks]⟩) ∧
    (∀ name env nets, env.listNetworks = .ok nets →
      (nets.filter fun m => m.Name == name).head? = none →
      getOrCreateNetworkP name env
        = ⟨env.createNetwork, [.listNetworks, .createNetwork name true true]⟩) ∧
    (∀ name env e, env.listNetworks = .error e →
      getOrCreateNetworkP name env
        = ⟨env.createNetwork, [.listNetworks, .createNetwork name true true]⟩) := by
  refine ⟨?_, ?_, ?_, ?_, ?_, ?_⟩
  · intro name env nets n h1 h2
    simp [getOrCreateNetwork, bindRes, emit, okRes, h1, h2]
  · intro name env nets h1 h2
    simp [getOrCreateNetwork, bindRes, emit, step, h1, h2]
  · intro name env e h1
    simp [getOrCreateNetwork, bindRes, emit, step, h1]
  · intro name env nets n h1 h2 h3
    simp [getOrCreateNetworkP, bindRes, emit, okRes, h1, h2, h3]
  · intro name env nets h1 h2
    simp [getOrCreateNetworkP, bindRes, emit, step, h1, h2]
  · intro name env e h1
    simp [getOrCreateNetworkP, bindRes, emit, step, h1]

/-- Witness for C7's theorem: an empty listing (no match) issues exactly the
one creation call and returns its outcome; a listing that contains the
network returns its handle with no creation call. -/
theorem c7_witness :
    getOrCreateNetwork "node-it-test-net" envHappy
      = ⟨.ok "network-id-1",
          [.listNetworks, .createNetwork "node-it-test-net" true true]⟩ ∧
    getOrCreateNetwork "node-it-test-net"
        { envHappy with listNetworks := .ok [⟨"node-it-test-net", "net-0"⟩] }
      = ⟨.ok "net-0", [.listNetworks]⟩ :=
  ⟨c7_getOrCreateNetwork_behaviour.2.1 "node-it-test-net" envHappy [] rfl rfl,
   c7_getOrCreateNetwork_behaviour.1 "node-it-test-net"
     { envHappy with listNetworks := .ok [⟨"node-it-test-net", "net-0"⟩] }
     [⟨"node-it-test-net", "net-0"⟩] ⟨"node-it-test-net", "net-0"⟩ rfl (by decide)⟩

/-- C9: when stopping or removing the container fails in the main variant's
`stop`, the remaining cleanup is skipped — no disconnect of the external
container and no network removal are issued — while `stop` still resolves. -/
theorem c9_stop_failure_skips_network_cleanup (cfg : Config) (env : Env)
    (h : (∃ e, env.stopContainer = .error e) ∨
         (env.stopContainer = .ok () ∧ ∃ e, env.removeContainer = .error e)) :
    (stop cfg env).result = .ok () ∧
    (∀ c, Event.disconnectNetwork c ∉ (stop cfg env).trace) ∧
    Event.removeNetwork ∉ (stop cfg env).trace := by
  have htr : (stop cfg env).trace = [Event.stopContainer] ∨
      (stop cfg env).trace = [Event.stopContainer, Event.removeContainer] := by
    rcases h with ⟨e, he⟩ | ⟨hok, e, he⟩
    · left
      simp [stop, catchRes, bindRes, step, okRes, he]
    · right
      simp [stop, catchRes, bindRes, step, okRes, he, hok]
  refine ⟨stop_result_ok cfg env, ?_, ?_⟩ <;>
    rcases htr with htr | htr <;> rw [htr] <;> simp

/-- Witness for C9's theorem: the named container is absent, so stopping it
fails; `stop` resolves and leaves the network alone. -/
theorem c9_witness :
    (stop defaultConfig envStopGone).result = .ok () ∧
    (∀ c, Event.disconnectNetwork c ∉ (stop defaultConfig envStopGone).trace) ∧
    Event.removeNetwork ∉ (stop defaultConfig envStopGone).trace :=
  c9_stop_failure_skips_network_cleanup defaultConfig envStopGone
    (Or.inl ⟨.engine "no such container", rfl⟩)

/-- C5 (amended): the main variant's `stop` never rejects — every failure in
its chain is caught and swallowed; the part_000 variant's `stop` has no catch,
so a failure of its first engine call (e.g. the named container being absent)
propagates and `stop` rejects. -/
theorem c5_stop_error_handling :
    (∀ cfg env, (stop cfg env).result = .ok ()) ∧
    (∀ cfg env e, cfg.itContainerName.isEmpty = false → env.stopContainer = .error e →
      (stopP cfg env).result = .error e) := by
  refine ⟨stop_result_ok, ?_⟩
  intro cfg env e hname hstop
  simp [stopP, hname, bindRes, step, hstop]

/-- Witness for C5's theorem: with the default configuration, the main
variant's `stop` resolves even when the engine reports the container absent,
while the part_000 variant's `stop` rejects there. -/
theorem c5_witness :
    (stop defaultConfig envStopGone).result = .ok () ∧
    (stopP defaultConfig envStopGone).result = .error (.engine "no such container") :=
  ⟨c5_stop_error_handling.1 defaultConfig envStopGone,
   c5_stop_error_handling.2 defaultConfig envStopGone (.engine "no such container")
     (by decide) rfl⟩

/-- Counterexample for C5 as stated: in the part_000 variant `stop` rejects
when the named container is absent (stopping it fails), instead of swallowing
the failure. -/
theorem c5_counterexample :
    (stopP defaultConfig envStopGone).result = .error (.engine "no such container") := by
  decide

/-- C1 (code bug): the stop callback `start`/`restart` pass to the verifier is
`this.stop`, which is `module.exports.stop = undefined` (the methods are
arrow functions), so when all 10 connectivity attempts fail the exhaustion
path's `await stopFn()` throws a TypeError: the verifier rejects instead of
returning `false`, no teardown engine call is ever issued, and `start` and
`restart` reject instead of resolving `null`.  The claim (and the spec's
teardown contract) describe the intended behaviour, not the code's.  The
theorem evaluates the code at the failing input: every engine call succeeds
but the database never answers. -/
theorem c1_exhaustion_typeerror_no_teardown :
    (verifyDatabaseConnection true envDbDown.connectDb undefinedStop).result
      = .error (.typeError "stopFn is not a function") ∧
    (start defaultConfig envDbDown).result
      = .error (.typeError "stopFn is not a function") ∧
    Event.stopContainer ∉ (start defaultConfig envDbDown).trace ∧
    Event.removeContainer ∉ (start defaultConfig envDbDown).trace ∧
    Event.removeNetwork ∉ (start defaultConfig envDbDown).trace ∧
    (restart defaultConfig envDbDown).result
      = .error (.typeError "this.start is not a function") := by
  decide

/-- C2: against a connectivity check that fails on every attempt the verifier
performs exactly 10 attempts; the waits follow the schedule `w 0 = 500`,
`w (n+1) = w n + round(w n / 2)` (`500, 750, 1125, 1688, …`), with exactly the
first 9 waits falling between the 10 attempts (the trace decomposes into a
prefix holding all 10 attempts and exactly those 9 waits, and an
attempt-free remainder); and a successful attempt is followed by no wait at
all (the trace ends at the successful attempt). -/
theorem c2_backoff_schedule :
    (∀ cenv, (∀ i, i < 10 → (connect (cenv i)).result ≠ .ok true) →
      (verifyDatabaseConnection true cenv stopNop).trace.countP isAttempt = 10 ∧
      sleepsOf (verifyDatabaseConnection true cenv stopNop).trace = waitList 500 10 ∧
      ∃ pre post, (verifyDatabaseConnection true cenv stopNop).trace = pre ++ post ∧
        pre.countP isAttempt = 10 ∧ sleepsOf pre = waitList 500 9 ∧
        post.countP isAttempt = 0) ∧
    waitList 500 9 = [500, 750, 1125, 1688, 2532, 3798, 5697, 8546, 12819] ∧
    waitList 500 10 = [500, 750, 1125, 1688, 2532, 3798, 5697, 8546, 12819, 19229] ∧
    (∀ n, schedule (n + 1) = schedule n + jsRoundHalf (schedule n)) ∧
    (∀ k, k < 10 →
      (verifyDatabaseConnection true (cenvSuccAt k) stopNop).trace
        = successPrefix k ++ [.connectAttempt k, .destroy] ∧
      (verifyDatabaseConnection true (cenvSuccAt k) stopNop).result = .ok (some true) ∧
      sleepsOf (successPrefix k) = waitList 500 k) := by
  refine ⟨?_, by decide, by decide, fun n => rfl, by decide⟩
  intro cenv h
  have hv := verify_fail_eq cenv stopNop h
  refine ⟨?_, ?_, ?_⟩
  · rw [hv]
    simp [List.countP_append, List.countP_cons, isAttempt,
      failTrace_countP_isAttempt, stopNop]
  · rw [hv]
    show sleepsOf (failTrace connect cenv 0 500 10 ++ .stopCalled :: stopNop.trace)
      = waitList 500 10
    rw [sleepsOf_append, failTrace_sleepsOf]
    simp [sleepsOf, stopNop]
  · obtain ⟨pre, post, hd, hp1, hp2, hp3⟩ := failTrace_decomp cenv 9 0 500
    refine ⟨pre, post ++ .stopCalled :: stopNop.trace, ?_, hp1, hp2, ?_⟩
    · rw [hv]
      show failTrace connect cenv 0 500 10 ++ .stopCalled :: stopNop.trace
        = pre ++ (post ++ .stopCalled :: stopNop.trace)
      rw [show (10 : Nat) = 9 + 1 from rfl, hd, List.append_assoc]
    · simp [List.countP_append, List.countP_cons, isAttempt, hp3, stopNop]

/-- Witness for C2's theorem: the always-failing database behaviour. -/
theorem c2_witness :
    (verifyDatabaseConnection true cenvAllFail stopNop).trace.countP isAttempt = 10 ∧
    sleepsOf (verifyDatabaseConnection true cenvAllFail stopNop).trace = waitList 500 10 :=
  ⟨(c2_backoff_schedule.1 cenvAllFail (by decide)).1,
   (c2_backoff_schedule.1 cenvAllFail (by decide)).2.1⟩

/-- C6 (code bug): `restart` never delegates to the `start` flow.  In
src/node-it-docker.js the catch handler evaluates `return this.start()` where
`this.start` is `undefined` (arrow-function method, module-scope `this`), so a
failed restart call makes `restart` reject with a TypeError and no container
is created; in src/unnamed/part_000 the local handle's id always equals the
configured name, so the delegation branch is dead and the failed restart
call's rejection propagates untouched.  The null-on-verification-failure path
is likewise unreachable in both variants: on exhaustion the `undefined` stop
callback throws first.  The claim (and the spec's restart contract) describe
the intended behaviour, not the code's.  The theorem evaluates the code at
the failing inputs: the named container absent, and verification exhausting
its attempts. -/
theorem c6_restart_never_delegates :
    (restart defaultConfig envNoContainer).result
      = .error (.typeError "this.start is not a function") ∧
    Event.createContainer ∉ (restart defaultConfig envNoContainer).trace ∧
    (restartP defaultConfig envNoContainer).result
      = .error (.engine "no such container") ∧
    Event.createContainer ∉ (restartP defaultConfig envNoContainer).trace ∧
    (restart defaultConfig envDbDown).result
      = .error (.typeError "this.start is not a function") ∧
    (restartP defaultConfig envDbDown).result
      = .error (.typeError "stopFn is not a function") := by
  decide

/-- C10 (amended): the two `start` variants agree — same returned result —
whenever the named container is absent (the inspect probe fails, so both
create it) and every network listed under the configured name has a truthy
id; both pass the same `undefined` `this.stop` to the verifier, so even the
exhaustion rejection coincides.  They are not equivalent in general (see the
counterexample: with the container already present the main variant reuses it
and returns the connection parameters while part_000 still attempts creation
and rejects, and only the main variant issues the inspect call). -/
theorem c10_start_variants (cfg : Config) (env : Env) (e : Err)
    (hins : env.inspectContainer = .error e)
    (hnets : ∀ n ∈ netsOf env, n.Name = cfg.containerNetworkName → n.Id.isEmpty = false) :
    (start cfg env).result = (startP cfg env).result := by
  have hnet := getOrCreateNetworkP_eq cfg.containerNetworkName env hnets
  rw [start, startP, hnet]
  rcases hN : (getOrCreateNetwork cfg.containerNetworkName env).result with eN | v
  · rw [bindRes_result_err _ hN, bindRes_result_err _ hN]
  · rw [bindRes_result_ok _ hN, bindRes_result_ok _ hN]
    rcases hcc : env.createContainer with e2 | cid
    · rw [bindRes_result_err _ (show (catchRes
            (bindRes (step env.inspectContainer .inspectContainer) fun _ => okRes ())
            (fun _ => bindRes (step (Except.error e2) .createContainer)
              fun _ => okRes ())).result = .error e2 by
            simp [catchRes, bindRes, step, okRes, hins]),
          bindRes_result_err _ (show (step (Except.error e2 : Except Err String)
            .createContainer).result = .error e2 from rfl)]
    · rw [bindRes_result_ok _ (show (catchRes
            (bindRes (step env.inspectContainer .inspectContainer) fun _ => okRes ())
            (fun _ => bindRes (step (Except.ok cid) .createContainer)
              fun _ => okRes ())).result = .ok () by
            simp [catchRes, bindRes, step, okRes, hins]),
          bindRes_result_ok _ (show (step (Except.ok cid : Except Err String)
            .createContainer).result = .ok cid from rfl)]
      rcases hsc : env.startContainer with e3 | u3
      · rw [bindRes_result_err _ (show (step (Except.error e3 : Except Err Unit)
              .startContainer).result = .error e3 from rfl),
            bindRes_result_err _ (show (step (Except.error e3 : Except Err Unit)
              .startContainer).result = .error e3 from rfl)]
      · cases u3
        rw [bindRes_result_ok _ (show (step (Except.ok () : Except Err Unit)
              .startContainer).result = .ok () from rfl),
            bindRes_result_ok _ (show (step (Except.ok () : Except Err Unit)
              .startContainer).result = .ok () from rfl)]
        rcases hat : (if truthy cfg.currentContainerId then
            step env.connectNetwork (.connectNetwork (currentId cfg))
            else okRes ()).result with e4 | u4
        · rw [bindRes_result_err _ hat, bindRes_result_err _ hat]
        · cases u4
          rw [bindRes_result_ok _ hat, bindRes_result_ok _ hat]
          have hveq := verifyP_result_eq cfg.verifyDbConnection env.connectDb
            undefinedStop undefinedStop rfl
          rcases hvr : (verifyDatabaseConnection cfg.verifyDbConnection env.connectDb
              undefinedStop).result with e5 | v5
          · rw [bindRes_result_err _ hvr, bindRes_result_err _ (hveq.trans hvr)]
          · rw [bindRes_result_ok _ hvr, bindRes_result_ok _ (hveq.trans hvr)]

/-- Witness for C10's theorem: the default configuration with the container
absent — both variants create it and return the same result. -/
theorem c10_witness :
    (start defaultConfig envNoContainer).result
      = (startP defaultConfig envNoContainer).result :=
  c10_start_variants defaultConfig envNoContainer (.engine "no such container") rfl
    (by decide)

/-- Counterexample for C10 as stated: with the named container already
present (and the same engine responses for both variants), the main variant
reuses it and `start` returns the connection parameters, while part_000 still
attempts creation and rejects with the name conflict; moreover only the main
variant issues the container-inspect call, so the engine-call sequences
differ too. -/
theorem c10_counterexample :
    (start defaultConfig envContainerExists).result
      = .ok (some (getDbConnectionParameters defaultConfig)) ∧
    (startP defaultConfig envContainerExists).result = .error (.engine "name conflict") ∧
    Event.inspectContainer ∈ (start defaultConfig envContainerExists).trace ∧
    Event.inspectContainer ∉ (startP defaultConfig envContainerExists).trace := by
  decide

end NodeItDocker
